import Mathlib

/-
  Shallow embedding of src/car_valuation_automation.py.

  The browser session is abstracted by an environment recording, for each
  locator, whether the explicit Selenium waits succeed within the timeout
  (element_to_be_clickable, presence_of_element_located) and what text a
  visible element would carry (visibility_of_element_located; none models a
  TimeoutException).  Python exceptions are modelled as values of PyError
  carried in Except; TimeoutException is a subclass of WebDriverException,
  so both count as a WebDriverException for the except-clauses and for the
  retry decorator's exception filter.
-/

namespace CarValuation

/- selenium.webdriver.common.by.By strategies used by the configs. -/
inductive By
  | cssSelector
  | id
deriving DecidableEq

/- A locator tuple (By strategy, selector string), as in the config dicts. -/
abbrev Locator := By × String

/-
  One step dictionary of a "search_flow" list.  The Python steps are plain
  dicts; each key may be present or absent, which we model with Option
  fields (none = key absent from the dict).
-/
structure Step where
  action : Option String := none
  locator : Option Locator := none
  keys : Option String := none
  wait_for : Option Locator := none
deriving DecidableEq

/- Python exception values that the modelled code can raise. -/
inductive PyError
  | keyError (key : String)
  | timeoutError
  | webDriverError
deriving DecidableEq

/-
  Whether the exception is an instance of WebDriverException.
  selenium's TimeoutException is a subclass of WebDriverException;
  KeyError is not.
-/
def PyError.isWebDriverException : PyError → Bool
  | .timeoutError => true
  | .webDriverError => true
  | .keyError _ => false

/-
  Abstract state of the live browser page: which waits succeed within
  CONFIG["TIMEOUT"], and the text of elements that become visible.
-/
structure BrowserEnv where
  navOk : Bool
  clickableOk : Locator → Bool
  presentOk : Locator → Bool
  visibleText : Locator → Option String

/- One entry of WEBSITE_CONFIGS (base_url, search_flow, details locators). -/
structure SiteConfig where
  base_url : String
  search_flow : List Step
  details_model : Locator
  details_year : Locator
deriving DecidableEq

/- Global constants from CONFIG (TIMEOUT bounds the waits inside BrowserEnv;
   delay=2 and backoff=2 only shape the sleep schedule, not the results). -/
def CONFIG_TIMEOUT : Nat := 30

def CONFIG_RETRIES : Nat := 2

/-
  WebsiteValidator._execute_action.  The Python body reads step["action"]
  first, unconditionally: on a dict without an "action" key this raises
  KeyError("action") before any branch is taken.  The elif chain then
  dispatches on the action string; an unrecognized action with no
  "wait_for" key is a silent no-op.  element.clear()/send_keys/click are
  folded into the clickable-wait outcome of the environment; the
  "{registration}" substitution in step["keys"] has no observable effect
  on control flow.
-/
def _execute_action (env : BrowserEnv) (step : Step) (registration : String) :
    Except PyError Unit :=
  match step.action with
  | none => .error (PyError.keyError "action")
  | some a =>
    if a = "input" then
      match step.locator with
      | none => .error (PyError.keyError "locator")
      | some loc =>
        if env.clickableOk loc then
          match step.keys with
          | none => .error (PyError.keyError "keys")
          | some _ => .ok ()
        else .error PyError.timeoutError
    else if a = "click" then
      match step.locator with
      | none => .error (PyError.keyError "locator")
      | some loc =>
        if env.clickableOk loc then .ok () else .error PyError.timeoutError
    else
      match step.wait_for with
      | some loc => if env.presentOk loc then .ok () else .error PyError.timeoutError
      | none => .ok ()

/- The for-loop over config["search_flow"] inside search_registration. -/
def run_search_flow (env : BrowserEnv) (steps : List Step) (registration : String) :
    Except PyError Unit :=
  match steps with
  | [] => .ok ()
  | s :: rest =>
    match _execute_action env s registration with
    | .ok _ => run_search_flow env rest registration
    | .error e => .error e

/-
  The undecorated body of WebsiteValidator.search_registration: navigate to
  base_url, play the flow, return True; a WebDriverException anywhere in the
  try-block is caught, logged and turned into False.  Exceptions that are
  not WebDriverException (e.g. KeyError) escape the except-clause.
-/
def search_attempt (cfg : SiteConfig) (env : BrowserEnv) (registration : String) :
    Except PyError Bool :=
  match (if env.navOk then run_search_flow env cfg.search_flow registration
         else .error PyError.webDriverError) with
  | .ok _ => .ok true
  | .error e => if e.isWebDriverException then .ok false else .error e

/-
  The retry library's decorator semantics for
  retry(WebDriverException, tries=CONFIG["RETRIES"], delay=2, backoff=2):
  `tries` is the maximum TOTAL number of attempts; a raised
  WebDriverException triggers a re-attempt while attempts remain, the last
  attempt's outcome (value or exception) is returned/re-raised; exceptions
  outside the filter propagate at once.  The sleep schedule (2, 4, ...) is
  not observable in results and is not modelled.
-/
def retry_call (tries : Nat) (attempt : Nat → Except PyError Bool) (k : Nat) :
    Except PyError Bool :=
  match tries with
  | 0 => attempt k
  | 1 => attempt k
  | n + 2 =>
    match attempt k with
    | .ok b => .ok b
    | .error e =>
      if e.isWebDriverException then retry_call (n + 1) attempt (k + 1) else .error e

/-
  The decorated search_registration.  Successive attempts may observe
  different page states, so the environment is indexed by attempt number.
-/
def search_registration (cfg : SiteConfig) (envs : Nat → BrowserEnv)
    (registration : String) : Except PyError Bool :=
  retry_call CONFIG_RETRIES (fun k => search_attempt cfg (envs k) registration) 0

/- Python str.strip(): drop ASCII whitespace from both ends. -/
def isSpaceCh (c : Char) : Bool :=
  c == ' ' || c == '\t' || c == '\n' || c == '\r' || c == '\x0b' || c == '\x0c'

def pyStrip (s : String) : String :=
  String.mk (((s.data.dropWhile isSpaceCh).reverse.dropWhile isSpaceCh).reverse)

/-
  WebsiteValidator.get_vehicle_details: wait for the model element to be
  visible and read its stripped text, then the year element; a
  WebDriverException (in particular the visibility TimeoutException) in
  either lookup is caught and the sentinel pair is returned.
-/
def get_vehicle_details (cfg : SiteConfig) (env : BrowserEnv) : String × String :=
  match env.visibleText cfg.details_model with
  | none => ("Not Found", "N/A")
  | some mtext =>
    match env.visibleText cfg.details_year with
    | none => ("Not Found", "N/A")
    | some ytext => (pyStrip mtext, pyStrip ytext)

/- WEBSITE_CONFIGS, entry "motorway". -/
def motorway : SiteConfig :=
  { base_url := "https://motorway.co.uk/"
  , search_flow :=
      [ { action := some "input"
        , locator := some (By.cssSelector, "input#vrm-input")
        , keys := some "{registration}\n" }
      , { wait_for := some (By.cssSelector, "h1.HeroVehicle__title") } ]
  , details_model := (By.cssSelector, "h1.HeroVehicle__title")
  , details_year := (By.cssSelector, "ul.HeroVehicle__details li:first-child") }

/- WEBSITE_CONFIGS, entry "autotrader". -/
def autotrader : SiteConfig :=
  { base_url := "https://www.autotrader.co.uk/"
  , search_flow :=
      [ { action := some "click"
        , locator := some (By.cssSelector, "button[data-testid=\x27toggle-button\x27]") }
      , { action := some "input"
        , locator := some (By.id, "registration")
        , keys := some "{registration}" }
      , { action := some "click"
        , locator := some (By.cssSelector, "button[data-testid=\x27search-button\x27]") }
      , { wait_for := some (By.cssSelector, "h1[data-testid=\x27search-title\x27]") } ]
  , details_model := (By.cssSelector, "h1[data-testid=\x27search-title\x27]")
  , details_year := (By.cssSelector, "li[data-testid=\x27spec-year\x27]") }

/- WEBSITE_CONFIGS, entry "confused". -/
def confused : SiteConfig :=
  { base_url := "https://www.confused.com/car-insurance/your-car"
  , search_flow :=
      [ { action := some "input"
        , locator := some (By.id, "Auto_Reg")
        , keys := some "{registration}" }
      , { action := some "click"
        , locator := some (By.id, "btnGetCarDetails") }
      , { wait_for := some (By.cssSelector, "div.vehicle-details") } ]
  , details_model := (By.cssSelector, "span.vehicle-model")
  , details_year := (By.cssSelector, "span.vehicle-year") }

/- WEBSITE_CONFIGS as an insertion-ordered association list (Python dicts
   preserve insertion order, which main's iteration follows). -/
def WEBSITE_CONFIGS : List (String × SiteConfig) :=
  [("motorway", motorway), ("autotrader", autotrader), ("confused", confused)]

/- WEBSITE_CONFIGS[website_name]: none models the KeyError on a missing key. -/
def configLookup (configs : List (String × SiteConfig)) (name : String) :
    Option SiteConfig :=
  (configs.find? (fun p => p.1 == name)).map (fun p => p.2)

/- Character classes of CONFIG["INPUT_PATTERN"] = \b[A-Z]{2}\d{2} [A-Z]{3}\b
   (ASCII; the inputs of interest are ASCII text). -/
def isUpperCh (c : Char) : Bool := decide ('A' ≤ c ∧ c ≤ 'Z')

def isLowerCh (c : Char) : Bool := decide ('a' ≤ c ∧ c ≤ 'z')

def isDigitCh (c : Char) : Bool := decide ('0' ≤ c ∧ c ≤ '9')

/- A regex word character (\w), for the \b word-boundary assertions. -/
def isWordCh (c : Char) : Bool := isUpperCh c || isLowerCh c || isDigitCh c || c == '_'

/- \b before the first matched character (which is a word character):
   holds at the start of the text or after a non-word character. -/
def boundaryBefore : Option Char → Bool
  | none => true
  | some c => !isWordCh c

/- \b after the last matched character (a word character):
   holds at the end of the text or before a non-word character. -/
def boundaryAfter : List Char → Bool
  | [] => true
  | c :: _ => !isWordCh c

/- Whether the eight characters a b c d sp e f g, read in a context with
   `prev` just before them and `rest` just after, match the full pattern. -/
def regMatchOk (prev : Option Char) (a b c d sp e f g : Char) (rest : List Char) :
    Bool :=
  boundaryBefore prev && isUpperCh a && isUpperCh b && isDigitCh c && isDigitCh d &&
    sp == ' ' && isUpperCh e && isUpperCh f && isUpperCh g && boundaryAfter rest

/- Whether a match of the pattern starts exactly at the head of `l`. -/
def windowMatch (prev : Option Char) (l : List Char) : Bool :=
  match l with
  | a :: b :: c :: d :: sp :: e :: f :: g :: rest => regMatchOk prev a b c d sp e f g rest
  | _ => false

/- The eight-character match text taken from the head of `l`. -/
def windowStr (l : List Char) : String := String.mk (l.take 8)

/-
  re.findall scanning loop: try the pattern at every position, left to
  right; on a match, emit the matched text and resume scanning right after
  it (matches never overlap), which the `skip` counter realizes.  `prev` is
  the character before the current position, for the \b assertion.
-/
def findall_go (skip : Nat) (prev : Option Char) : List Char → List String
  | [] => []
  | c :: cs =>
    match skip with
    | k + 1 => findall_go k (some c) cs
    | 0 =>
      if windowMatch prev (c :: cs) then
        windowStr (c :: cs) :: findall_go 7 (some c) cs
      else
        findall_go 0 (some c) cs

/- DataHandler.load_registrations: re.findall(CONFIG["INPUT_PATTERN"], content). -/
def load_registrations (content : String) : List String :=
  findall_go 0 none content.data

/- The anchored pattern ^[A-Z]{2}\d{2} [A-Z]{3}$ over a whole string. -/
def isValidReg (s : String) : Bool :=
  match s.data with
  | [a, b, c, d, sp, e, f, g] =>
    isUpperCh a && isUpperCh b && isDigitCh c && isDigitCh d && sp == ' ' &&
      isUpperCh e && isUpperCh f && isUpperCh g
  | _ => false

/- A pandas cell as read by pd.read_csv: a string or an integer (the two
   dtypes that the VARIANT_REG / MAKE_MODEL / YEAR columns take here). -/
inductive Cell
  | s (v : String)
  | i (v : Int)
deriving DecidableEq

/- Python str() applied to a cell value. -/
def cellStr : Cell → String
  | .s v => v
  | .i v => toString v

/- One row of the expected-data table. -/
structure Row where
  VARIANT_REG : String
  MAKE_MODEL : Cell
  YEAR : Cell
deriving DecidableEq

/-
  DataHandler.load_expected_data: the dict comprehension
  row['VARIANT_REG'] -> (row['MAKE_MODEL'], str(row['YEAR'])) in row order.
  The dict is modelled as this association list, with lookups taking the
  LAST binding of a key (a later duplicate key overwrites an earlier one).
-/
def load_expected_data (rows : List Row) : List (String × (Cell × String)) :=
  rows.map (fun row => (row.VARIANT_REG, (row.MAKE_MODEL, cellStr row.YEAR)))

/- Python dict.get(k, default) on the association-list model (last binding
   of k wins, matching dict-comprehension overwrite semantics). -/
def pyGet {α : Type} (d : List (String × α)) (k : String) (default : α) : α :=
  match d.reverse.find? (fun p => p.1 == k) with
  | some p => p.2
  | none => default

/- Page-state abstraction for one validate_registration call: the states
   seen by the search attempts, and the state when details are extracted. -/
structure ValidateEnv where
  searchEnvs : Nat → BrowserEnv
  detailsEnv : BrowserEnv

/- The result dict built by validate_registration. -/
structure Result where
  website : String
  reg : String
  exp_model : Cell
  exp_year : String
  act_model : String
  act_year : String
  status : String
deriving DecidableEq

/-
  validate_registration: build the initial result dict, look up the site
  config (KeyError on a missing name), fill the expected fields from
  expected_data.get(reg, ("Not Found", "N/A")), run the search, then either
  extract-and-classify, or mark "Search Failed"; any exception escaping
  these calls is caught by the except-Exception clause (the screenshot
  side effect has no bearing on the returned dict), leaving status "Error".
-/
def validate_registration (configs : List (String × SiteConfig)) (ve : ValidateEnv)
    (website_name reg : String) (expected_data : List (String × (Cell × String))) :
    Result :=
  let init : Result :=
    { website := website_name, reg := reg
    , exp_model := Cell.s "N/A", exp_year := "N/A"
    , act_model := "N/A", act_year := "N/A", status := "Error" }
  match configLookup configs website_name with
  | none => init
  | some config =>
    let exp_data := pyGet expected_data reg (Cell.s "Not Found", "N/A")
    let r1 := { init with exp_model := exp_data.1, exp_year := exp_data.2 }
    match search_registration config ve.searchEnvs reg with
    | .error _ => r1
    | .ok false => { r1 with status := "Search Failed" }
    | .ok true =>
      let d := get_vehicle_details config ve.detailsEnv
      { r1 with
          act_model := d.1
        , act_year := d.2
        , status := if Cell.s d.1 = exp_data.1 ∧ d.2 = exp_data.2 then "Pass" else "Fail" }

/-
  The nested loop of main(): for website in WEBSITE_CONFIGS (insertion
  order) and for reg in input_regs (load order), append
  validate_registration's result.  `env` gives the page states each
  (site, registration) iteration encounters.
-/
def main_results (configs : List (String × SiteConfig)) (input_regs : List String)
    (expected_data : List (String × (Cell × String)))
    (env : String → String → ValidateEnv) : List Result :=
  configs.flatMap (fun wc => input_regs.map (fun reg =>
    validate_registration configs (env wc.1 reg) wc.1 reg expected_data))

/- The wait_for step of the "motorway" flow (a dict with no "action" key). -/
def motorway_wait_step : Step :=
  { wait_for := some (By.cssSelector, "h1.HeroVehicle__title") }

/- A minimal well-formed descriptor whose flow carries only "action" steps,
   used to exercise the executor on inputs where its flow can complete. -/
def simple_flow_config : SiteConfig :=
  { base_url := "https://example.test/"
  , search_flow :=
      [ { action := some "input"
        , locator := some (By.id, "reg")
        , keys := some "{registration}" } ]
  , details_model := (By.id, "m")
  , details_year := (By.id, "y") }

/- A page state where navigation and every wait fail. -/
def failing_env : BrowserEnv :=
  { navOk := false
  , clickableOk := fun _ => false
  , presentOk := fun _ => false
  , visibleText := fun _ => none }

/- A page state where navigation and every wait succeed; visible elements
   carry the text "x". -/
def good_env : BrowserEnv :=
  { navOk := true
  , clickableOk := fun _ => true
  , presentOk := fun _ => true
  , visibleText := fun _ => some "x" }

/- Attempt 0 sees the failing page state, every later attempt the good one. -/
def fail_then_good : Nat → BrowserEnv
  | 0 => failing_env
  | _ + 1 => good_env

def good_validate_env : ValidateEnv :=
  { searchEnvs := fun _ => good_env, detailsEnv := good_env }

def fail_validate_env : ValidateEnv :=
  { searchEnvs := fun _ => failing_env, detailsEnv := failing_env }

def demo_env_fun : String → String → ValidateEnv := fun _ _ => fail_validate_env

def demo_row : Row :=
  { VARIANT_REG := "AB12 CDE", MAKE_MODEL := Cell.s "Ford Focus", YEAR := Cell.i 2019 }

/-
  Helper: one attempt of the search body either returns a boolean or
  raises an exception that is NOT a WebDriverException (the body's
  except-clause converts every WebDriverException into False).
-/
theorem search_attempt_cases (cfg : SiteConfig) (env : BrowserEnv) (r : String) :
    search_attempt cfg env r = .ok true ∨ search_attempt cfg env r = .ok false ∨
      ∃ e, search_attempt cfg env r = .error e ∧ e.isWebDriverException = false := by
  unfold search_attempt
  cases hc : (if env.navOk then run_search_flow env cfg.search_flow r
              else .error PyError.webDriverError) with
  | ok u => left; rfl
  | error e =>
    cases hw : e.isWebDriverException with
    | true => right; left; simp [hw]
    | false => right; right; exact ⟨e, by simp [hw], hw⟩

/-
  Helper: since the body never lets a WebDriverException escape, the retry
  decorator never re-attempts; the decorated call equals the first attempt.
-/
theorem search_registration_eq_first_attempt (cfg : SiteConfig)
    (envs : Nat → BrowserEnv) (r : String) :
    search_registration cfg envs r = search_attempt cfg (envs 0) r := by
  have h2 : search_registration cfg envs r =
      (match search_attempt cfg (envs 0) r with
       | .ok b => .ok b
       | .error e =>
         if e.isWebDriverException then
           retry_call 1 (fun k => search_attempt cfg (envs k) r) 1
         else .error e) := rfl
  rw [h2]
  rcases search_attempt_cases cfg (envs 0) r with h | h | ⟨e, he, hw⟩
  · rw [h]
  · rw [h]
  · rw [he]
    simp [hw]

/--
Claim C1 (code bug): a WaitFor step of a site descriptor should block until
an element matching its locator is present, raising only the recoverable
browser-interaction failure on timeout; but the step dicts written as
`wait_for`-only dicts carry no "action" key, and `_execute_action` reads
`step["action"]` unconditionally, so executing the motorway WaitFor step
raises KeyError("action") for every page state — the presence wait is never
reached.
-/
theorem waitFor_step_raises_keyError :
    motorway_wait_step ∈ motorway.search_flow ∧
      motorway_wait_step.wait_for = some (By.cssSelector, "h1.HeroVehicle__title") ∧
      ∀ (env : BrowserEnv) (r : String),
        _execute_action env motorway_wait_step r = .error (PyError.keyError "action") :=
  ⟨by decide, rfl, fun _ _ => rfl⟩

/--
Claim C2 (code bug): the retry policy on search_registration never fires,
because the body catches every WebDriverException and returns False before
the decorator can see it; hence the decorated call always equals the first
attempt, and an invocation whose first attempt fails with a recoverable
browser-interaction failure returns false even when the second attempt
would have succeeded.
-/
theorem search_retry_never_fires :
    (∀ (cfg : SiteConfig) (envs : Nat → BrowserEnv) (r : String),
        search_registration cfg envs r = search_attempt cfg (envs 0) r) ∧
      search_registration simple_flow_config fail_then_good "AB12 CDE" = .ok false ∧
      search_attempt simple_flow_config (fail_then_good 1) "AB12 CDE" = .ok true :=
  ⟨search_registration_eq_first_attempt, rfl, rfl⟩

/--
Claim C7: whenever the model lookup or the year lookup of the Field
Extractor fails (element not visible within the timeout), the call returns
the sentinel pair rather than raising; the total return type of the
embedding reflects that no exception escapes.
-/
theorem get_vehicle_details_sentinel (cfg : SiteConfig) (env : BrowserEnv)
    (h : env.visibleText cfg.details_model = none ∨
         env.visibleText cfg.details_year = none) :
    get_vehicle_details cfg env = ("Not Found", "N/A") := by
  rcases h with h | h
  · simp [get_vehicle_details, h]
  · cases hm : env.visibleText cfg.details_model with
    | none => simp [get_vehicle_details, hm]
    | some t => simp [get_vehicle_details, hm, h]

theorem get_vehicle_details_sentinel_witness :
    get_vehicle_details simple_flow_config failing_env = ("Not Found", "N/A") :=
  get_vehicle_details_sentinel simple_flow_config failing_env (Or.inl rfl)

/-
  Helper: a window accepted by the full pattern (boundaries included)
  yields a match text satisfying the anchored pattern.
-/
theorem windowMatch_valid (prev : Option Char) (l : List Char)
    (h : windowMatch prev l = true) : isValidReg (windowStr l) = true := by
  unfold windowMatch at h
  split at h
  next a b c d sp e f g rest =>
    simp only [regMatchOk, Bool.and_eq_true] at h
    obtain ⟨⟨⟨⟨⟨⟨⟨⟨⟨h1, h2⟩, h3⟩, h4⟩, h5⟩, h6⟩, h7⟩, h8⟩, h9⟩, h10⟩ := h
    show isValidReg (String.mk [a, b, c, d, sp, e, f, g]) = true
    simp [isValidReg, h2, h3, h4, h5, h6, h7, h8, h9]
  next => exact absurd h (by simp)

/- Helper: every string emitted by the findall scan satisfies the pattern. -/
theorem findall_go_valid (l : List Char) : ∀ (k : Nat) (prev : Option Char) (r : String),
    r ∈ findall_go k prev l → isValidReg r = true := by
  induction l with
  | nil =>
    intro k prev r hr
    simp [findall_go] at hr
  | cons c cs ih =>
    intro k prev r hr
    cases k with
    | succ k' =>
      simp only [findall_go] at hr
      exact ih k' (some c) r hr
    | zero =>
      simp only [findall_go] at hr
      by_cases hw : windowMatch prev (c :: cs) = true
      · rw [if_pos hw] at hr
        rcases List.mem_cons.mp hr with h | h
        · subst h
          exact windowMatch_valid prev (c :: cs) hw
        · exact ih 7 (some c) r h
      · rw [if_neg hw] at hr
        exact ih 0 (some c) r hr

/--
Claim C6: every registration extracted by load_registrations matches the
anchored pattern (two uppercase letters, two digits, a space, three
uppercase letters); the scan emits matches in order of appearance and does
not de-duplicate repeated occurrences, as the concrete runs show.
-/
theorem load_registrations_pattern :
    (∀ (content r : String), r ∈ load_registrations content → isValidReg r = true) ∧
      load_registrations "Vehicle AB12 CDE then AB12 CDE again" =
        ["AB12 CDE", "AB12 CDE"] ∧
      load_registrations "noise ZZ99 QQQ mid AB12 CDE end" =
        ["ZZ99 QQQ", "AB12 CDE"] := by
  refine ⟨?_, by decide, by decide⟩
  intro content r hr
  exact findall_go_valid content.data 0 none r hr

theorem load_registrations_pattern_witness : isValidReg "AB12 CDE" = true :=
  load_registrations_pattern.1 "Vehicle AB12 CDE was seen" "AB12 CDE" (by decide)

/- Helper: length of the nested-loop list over a cross product. -/
theorem length_flatMap_map {α β γ : Type} (l : List α) (l2 : List β) (g : α → β → γ) :
    (l.flatMap (fun a => l2.map (g a))).length = l.length * l2.length := by
  induction l with
  | nil => simp
  | cons a as ih =>
    simp only [List.flatMap_cons, List.length_append, List.length_map, ih,
      List.length_cons]
    ring

/- Helper: the element of the nested-loop list at row i, column j. -/
theorem get_flatMap_map {α β γ : Type} (l : List α) (l2 : List β) (g : α → β → γ)
    (i j : Nat) (hi : i < l.length) (hj : j < l2.length) :
    (l.flatMap (fun a => l2.map (g a))).get? (i * l2.length + j) =
      some (g (l.get ⟨i, hi⟩) (l2.get ⟨j, hj⟩)) := by
  induction l generalizing i with
  | nil => simp at hi
  | cons a as ih =>
    cases i with
    | zero =>
      simp only [Nat.zero_mul, Nat.zero_add]
      rw [List.flatMap_cons, List.get?_append (by simpa using hj)]
      rw [List.get?_map, List.get?_eq_get hj]
      rfl
    | succ i' =>
      have hlen : (l2.map (g a)).length = l2.length := by simp
      have hmul : (i' + 1) * l2.length = i' * l2.length + l2.length :=
        Nat.succ_mul _ _
      rw [List.flatMap_cons, List.get?_append_right
        (by rw [hlen, hmul]; generalize i' * l2.length = m; omega)]
      rw [hlen]
      have harith : (i' + 1) * l2.length + j - l2.length = i' * l2.length + j := by
        rw [hmul]; generalize i' * l2.length = m; omega
      rw [harith]
      exact ih i' (Nat.lt_of_succ_lt_succ (by simpa using hi))

/--
Claim C3: the Aggregator produces exactly one ValidationResult per
(site, registration) pair — the result list has length #sites ×
#registrations — and results appear in production order: the entry at
position i×#registrations+j is exactly the Validator's result for site i
and registration j.  The statement holds for EVERY page-state environment,
including ones on which every stage raises, because validate_registration
is total: no exception inside one pair's validation aborts the run or
suppresses that pair's result.
-/
theorem main_results_cross_product (configs : List (String × SiteConfig))
    (input_regs : List String) (expected_data : List (String × (Cell × String)))
    (env : String → String → ValidateEnv) :
    (main_results configs input_regs expected_data env).length =
        configs.length * input_regs.length ∧
      ∀ (i j : Nat) (hi : i < configs.length) (hj : j < input_regs.length),
        (main_results configs input_regs expected_data env).get?
            (i * input_regs.length + j) =
          some (validate_registration configs
            (env (configs.get ⟨i, hi⟩).1 (input_regs.get ⟨j, hj⟩))
            (configs.get ⟨i, hi⟩).1 (input_regs.get ⟨j, hj⟩) expected_data) := by
  constructor
  · exact length_flatMap_map configs input_regs _
  · intro i j hi hj
    exact get_flatMap_map configs input_regs _ i j hi hj

theorem main_results_cross_product_witness :
    (main_results WEBSITE_CONFIGS ["AB12 CDE", "ZZ99 QQQ"] [] demo_env_fun).get? 3 =
      some (validate_registration WEBSITE_CONFIGS (demo_env_fun "autotrader" "ZZ99 QQQ")
        "autotrader" "ZZ99 QQQ" []) := by
  have h := (main_results_cross_product WEBSITE_CONFIGS ["AB12 CDE", "ZZ99 QQQ"] []
    demo_env_fun).2 1 1 (by decide) (by decide)
  exact h

/--
Claim C4: when the Flow Executor reports success and extraction yields the
(stripped) actual model/year strings, the status is Pass exactly when the
actual model equals the expected model and the actual year equals the
expected year (exact, case-sensitive equality); any mismatch yields Fail and
never Pass, and the actual fields of the result are the extracted strings.
-/
theorem classification_pass_iff (configs : List (String × SiteConfig))
    (ve : ValidateEnv) (website_name reg : String)
    (expected_data : List (String × (Cell × String))) (cfg : SiteConfig)
    (am ay : String)
    (hcfg : configLookup configs website_name = some cfg)
    (hsearch : search_registration cfg ve.searchEnvs reg = .ok true)
    (hdet : get_vehicle_details cfg ve.detailsEnv = (am, ay)) :
    ((validate_registration configs ve website_name reg expected_data).status = "Pass" ↔
        (Cell.s am = (pyGet expected_data reg (Cell.s "Not Found", "N/A")).1 ∧
          ay = (pyGet expected_data reg (Cell.s "Not Found", "N/A")).2)) ∧
      ((validate_registration configs ve website_name reg expected_data).status = "Pass" ∨
        (validate_registration configs ve website_name reg expected_data).status = "Fail") ∧
      (validate_registration configs ve website_name reg expected_data).act_model = am ∧
      (validate_registration configs ve website_name reg expected_data).act_year = ay := by
  simp only [validate_registration, hcfg, hsearch, hdet]
  by_cases hp : (Cell.s am = (pyGet expected_data reg (Cell.s "Not Found", "N/A")).1 ∧
      ay = (pyGet expected_data reg (Cell.s "Not Found", "N/A")).2)
  · simp [hp]
  · simp [hp]

theorem classification_pass_iff_witness :
    ((validate_registration [("demo", simple_flow_config)] good_validate_env "demo"
        "AB12 CDE" [("AB12 CDE", (Cell.s "x", "x"))]).status = "Pass" ↔
        (Cell.s "x" = (pyGet [("AB12 CDE", (Cell.s "x", "x"))] "AB12 CDE"
            (Cell.s "Not Found", "N/A")).1 ∧
          "x" = (pyGet [("AB12 CDE", (Cell.s "x", "x"))] "AB12 CDE"
            (Cell.s "Not Found", "N/A")).2)) ∧
      ((validate_registration [("demo", simple_flow_config)] good_validate_env "demo"
          "AB12 CDE" [("AB12 CDE", (Cell.s "x", "x"))]).status = "Pass" ∨
        (validate_registration [("demo", simple_flow_config)] good_validate_env "demo"
          "AB12 CDE" [("AB12 CDE", (Cell.s "x", "x"))]).status = "Fail") ∧
      (validate_registration [("demo", simple_flow_config)] good_validate_env "demo"
        "AB12 CDE" [("AB12 CDE", (Cell.s "x", "x"))]).act_model = "x" ∧
      (validate_registration [("demo", simple_flow_config)] good_validate_env "demo"
        "AB12 CDE" [("AB12 CDE", (Cell.s "x", "x"))]).act_year = "x" :=
  classification_pass_iff [("demo", simple_flow_config)] good_validate_env "demo"
    "AB12 CDE" [("AB12 CDE", (Cell.s "x", "x"))] simple_flow_config "x" "x" rfl rfl rfl

/--
Claim C5: the status of every ValidationResult is one of the four values of
the closed enumeration — "Pass", "Fail", "Search Failed" (the spec's
SearchFailed) or "Error" — and whenever the Flow Executor returns false the
status is "Search Failed" with both actual fields left at "N/A".
-/
theorem status_closed_enumeration (configs : List (String × SiteConfig))
    (ve : ValidateEnv) (website_name reg : String)
    (expected_data : List (String × (Cell × String))) :
    ((validate_registration configs ve website_name reg expected_data).status = "Pass" ∨
      (validate_registration configs ve website_name reg expected_data).status = "Fail" ∨
      (validate_registration configs ve website_name reg expected_data).status =
        "Search Failed" ∨
      (validate_registration configs ve website_name reg expected_data).status =
        "Error") ∧
    ∀ cfg, configLookup configs website_name = some cfg →
      search_registration cfg ve.searchEnvs reg = .ok false →
      (validate_registration configs ve website_name reg expected_data).status =
          "Search Failed" ∧
        (validate_registration configs ve website_name reg expected_data).act_model =
          "N/A" ∧
        (validate_registration configs ve website_name reg expected_data).act_year =
          "N/A" := by
  constructor
  · cases hc : configLookup configs website_name with
    | none => simp [validate_registration, hc]
    | some cfg =>
      cases hs : search_registration cfg ve.searchEnvs reg with
      | error e => simp [validate_registration, hc, hs]
      | ok b =>
        cases b with
        | false => simp [validate_registration, hc, hs]
        | true =>
          simp only [validate_registration, hc, hs]
          split
          · simp
          · simp
  · intro cfg hcfg hsearch
    simp [validate_registration, hcfg, hsearch]

theorem status_closed_enumeration_witness :
    (validate_registration WEBSITE_CONFIGS fail_validate_env "motorway" "AB12 CDE"
        []).status = "Search Failed" ∧
      (validate_registration WEBSITE_CONFIGS fail_validate_env "motorway" "AB12 CDE"
        []).act_model = "N/A" ∧
      (validate_registration WEBSITE_CONFIGS fail_validate_env "motorway" "AB12 CDE"
        []).act_year = "N/A" :=
  (status_closed_enumeration WEBSITE_CONFIGS fail_validate_env "motorway" "AB12 CDE"
    []).2 motorway rfl rfl

/- Helper: dict.get falls back to the default when the key is absent. -/
theorem pyGet_of_absent {α : Type} (d : List (String × α)) (k : String) (default : α)
    (h : ∀ p ∈ d, p.1 ≠ k) : pyGet d k default = default := by
  unfold pyGet
  have hfind : d.reverse.find? (fun p => p.1 == k) = none := by
    rw [List.find?_eq_none]
    intro p hp
    simpa using h p (List.mem_reverse.mp hp)
  rw [hfind]

/--
Claim C8: for a registration absent from the expected-data map, the
Validator uses ("Not Found", "N/A") as the expected pair; when the search
succeeds and extraction yields (am, ay), the status is Pass exactly when
the actual fields equal those sentinel strings, and otherwise Fail.
-/
theorem missing_key_sentinel (configs : List (String × SiteConfig)) (ve : ValidateEnv)
    (website_name reg : String) (expected_data : List (String × (Cell × String)))
    (cfg : SiteConfig) (am ay : String)
    (hmiss : ∀ p ∈ expected_data, p.1 ≠ reg)
    (hcfg : configLookup configs website_name = some cfg)
    (hsearch : search_registration cfg ve.searchEnvs reg = .ok true)
    (hdet : get_vehicle_details cfg ve.detailsEnv = (am, ay)) :
    (validate_registration configs ve website_name reg expected_data).exp_model =
        Cell.s "Not Found" ∧
      (validate_registration configs ve website_name reg expected_data).exp_year =
        "N/A" ∧
      ((validate_registration configs ve website_name reg expected_data).status =
          "Pass" ↔ (am = "Not Found" ∧ ay = "N/A")) ∧
      ((validate_registration configs ve website_name reg expected_data).status =
          "Pass" ∨
        (validate_registration configs ve website_name reg expected_data).status =
          "Fail") := by
  have hget := pyGet_of_absent expected_data reg (Cell.s "Not Found", "N/A") hmiss
  simp only [validate_registration, hcfg, hsearch, hdet, hget]
  by_cases hp : (am = "Not Found" ∧ ay = "N/A")
  · simp [hp]
  · simp [hp, Cell.s.injEq]

theorem missing_key_sentinel_witness :
    (validate_registration [("demo", simple_flow_config)] good_validate_env "demo"
        "XX99 ZZZ" []).exp_model = Cell.s "Not Found" ∧
      (validate_registration [("demo", simple_flow_config)] good_validate_env "demo"
        "XX99 ZZZ" []).exp_year = "N/A" ∧
      ((validate_registration [("demo", simple_flow_config)] good_validate_env "demo"
          "XX99 ZZZ" []).status = "Pass" ↔ ("x" = "Not Found" ∧ "x" = "N/A")) ∧
      ((validate_registration [("demo", simple_flow_config)] good_validate_env "demo"
          "XX99 ZZZ" []).status = "Pass" ∨
        (validate_registration [("demo", simple_flow_config)] good_validate_env "demo"
          "XX99 ZZZ" []).status = "Fail") :=
  missing_key_sentinel [("demo", simple_flow_config)] good_validate_env "demo"
    "XX99 ZZZ" [] simple_flow_config "x" "x" (by simp) rfl rfl rfl

/--
Claim C9: whenever validate_registration classifies a result as "Error"
(an unexpected exception was caught), both actual fields still carry the
initial "N/A" placeholders — they are never partially overwritten on the
error path — and the call returns a result rather than propagating (the
embedding is a total function).
-/
theorem error_status_actual_na (configs : List (String × SiteConfig)) (ve : ValidateEnv)
    (website_name reg : String) (expected_data : List (String × (Cell × String)))
    (h : (validate_registration configs ve website_name reg expected_data).status =
      "Error") :
    (validate_registration configs ve website_name reg expected_data).act_model =
        "N/A" ∧
      (validate_registration configs ve website_name reg expected_data).act_year =
        "N/A" := by
  cases hc : configLookup configs website_name with
  | none => simp [validate_registration, hc]
  | some cfg =>
    cases hs : search_registration cfg ve.searchEnvs reg with
    | error e => simp [validate_registration, hc, hs]
    | ok b =>
      cases b with
      | false => simp [validate_registration, hc, hs]
      | true =>
        exfalso
        simp only [validate_registration, hc, hs] at h
        split at h
        · simp at h
        · simp at h

theorem error_status_actual_na_witness :
    (validate_registration WEBSITE_CONFIGS good_validate_env "motorway" "AB12 CDE"
        []).act_model = "N/A" ∧
      (validate_registration WEBSITE_CONFIGS good_validate_env "motorway" "AB12 CDE"
        []).act_year = "N/A" :=
  error_status_actual_na WEBSITE_CONFIGS good_validate_env "motorway" "AB12 CDE" [] rfl

/--
Claim C10: every value stored by load_expected_data comes from a table row,
with the MAKE_MODEL cell stored unconverted and the YEAR cell passed
through str() — so the year component of every mapping value is a string,
and an integer year cell 2019 is stored as the string "2019".
-/
theorem load_expected_data_year_string :
    (∀ (rows : List Row) (k : String) (v : Cell × String),
        (k, v) ∈ load_expected_data rows →
          ∃ row ∈ rows, row.VARIANT_REG = k ∧ v.1 = row.MAKE_MODEL ∧
            v.2 = cellStr row.YEAR) ∧
      load_expected_data [demo_row] = [("AB12 CDE", (Cell.s "Ford Focus", "2019"))] := by
  constructor
  · intro rows k v h
    obtain ⟨row, hrow, heq⟩ := List.mem_map.mp h
    simp only [Prod.mk.injEq] at heq
    obtain ⟨hk, hmy⟩ := heq
    exact ⟨row, hrow, hk, by rw [← hmy], by rw [← hmy]⟩
  · rfl

theorem load_expected_data_year_string_witness :
    ∃ row ∈ [demo_row], row.VARIANT_REG = "AB12 CDE" ∧
      (Cell.s "Ford Focus", "2019").1 = row.MAKE_MODEL ∧
      (Cell.s "Ford Focus", "2019").2 = cellStr row.YEAR :=
  load_expected_data_year_string.1 [demo_row] "AB12 CDE"
    (Cell.s "Ford Focus", "2019") (by decide)

end CarValuation
